import Mathlib

/-!
Verification of the reader module of clip-retrieval
(`clip_retrieval/clip_inference/reader.py`).

The embedding models:
* `folder_to_keys` — discovery of modality files in a directory tree,
  where a folder is the list of relative posix paths of its files and
  each glob `**/*.ext` is a case-sensitive suffix test on the path;
* `ImageDataset` — `__init__` and `__getitem__` of the folder dataset,
  with the file system, the injected image transform and the injected
  tokenizer provided as an explicit environment;
* `create_webdataset` — the webdataset configuration record, the
  `filter_dataset` predicate and the `preprocess_dataset` map, where
  the `warn_and_continue` handler that skips a raising sample is
  modelled by `Option`;
* `collate_fn` / `default_collate` — the files-mode batch collation.

Python exceptions escaping a function are modelled by dedicated error
constructors; `None` returned as the drop sentinel is modelled by a
`dropped` constructor carrying the printed diagnostic.
-/

/-- Python `str.endswith` (also the effect of a case-sensitive glob
`**/*.ext` on relative paths): the last `t.length` characters of `s`
equal `t`. -/
def strEndsWith (s t : String) : Bool :=
  s.data.drop (s.data.length - t.data.length) == t.data

/-- A path matched by the glob `**/*.txt` in `folder_to_keys`. -/
def isTextFile (f : String) : Bool := strEndsWith f ".txt"

/-- A path matched by one of the ten image globs of `folder_to_keys`
(`png/jpg/jpeg/bmp/webp`, lower case and upper case). -/
def isImageFile (f : String) : Bool :=
  strEndsWith f ".png" || strEndsWith f ".jpg" || strEndsWith f ".jpeg" ||
  strEndsWith f ".bmp" || strEndsWith f ".webp" ||
  strEndsWith f ".PNG" || strEndsWith f ".JPG" || strEndsWith f ".JPEG" ||
  strEndsWith f ".BMP" || strEndsWith f ".WEBP"

/-- A path matched by the glob `**/*.json` in `folder_to_keys`. -/
def isMetadataFile (f : String) : Bool := strEndsWith f ".json"

/-- Lexicographic comparison of code-point sequences: how Python orders
the strings handed to `sorted`. -/
def lexLe : List Char → List Char → Bool
  | [], _ => true
  | _ :: _, [] => false
  | c :: cs, d :: ds =>
    if c.toNat < d.toNat then true
    else if d.toNat < c.toNat then false
    else lexLe cs ds

/-- Python `<=` on strings. -/
def strLe (a b : String) : Bool := lexLe a.data b.data

theorem lexLe_total (a : List Char) : ∀ b, lexLe a b = true ∨ lexLe b a = true := by
  induction a with
  | nil => intro b; left; rfl
  | cons c cs ih =>
    intro b
    cases b with
    | nil => right; rfl
    | cons d ds =>
      rcases Nat.lt_trichotomy c.toNat d.toNat with h | h | h
      · left; simp [lexLe, h]
      · rcases ih ds with h' | h' <;> [left; right] <;>
          simp [lexLe, h, Nat.lt_irrefl, h']
      · right; simp [lexLe, h]

theorem lexLe_trans (a : List Char) :
    ∀ b c, lexLe a b = true → lexLe b c = true → lexLe a c = true := by
  induction a with
  | nil => intro b c _ _; rfl
  | cons x xs ih =>
    intro b c hab hbc
    cases b with
    | nil => simp [lexLe] at hab
    | cons y ys =>
      cases c with
      | nil => simp [lexLe] at hbc
      | cons z zs =>
        simp only [lexLe] at hab hbc ⊢
        by_cases hxy : x.toNat < y.toNat <;> by_cases hyz : y.toNat < z.toNat <;>
          by_cases hxz : x.toNat < z.toNat <;> simp_all
        · omega
        · have h1 := hbc.1; omega
        · have h1 := hab.1; omega
        · right
          refine ⟨?_, ih ys zs hab.2 hbc.2⟩
          have h1 := hab.1
          have h2 := hbc.1
          omega

instance : IsTotal String (fun a b => strLe a b = true) :=
  ⟨fun a b => lexLe_total a.data b.data⟩

instance : IsTrans String (fun a b => strLe a b = true) :=
  ⟨fun a b c => lexLe_trans a.data b.data c.data⟩

/-- Python `sorted` on a collection of strings (lexicographic by code
point). -/
def sortKeys (l : List String) : List String :=
  l.insertionSort (fun a b => strLe a b = true)

/-- Result of `folder_to_keys`: the key list and the three per-modality
file maps (modelled by their key lists; a map value is the file named by
its key).  `keys = none` models the `TypeError` raised by
`list(sorted(None))` when no modality is enabled; a `none` file map is
the Python `None` left when the modality is disabled. -/
structure FolderFiles where
  keys : Option (List String)
  text_files : Option (List String)
  image_files : Option (List String)
  metadata_files : Option (List String)
  deriving Repr, DecidableEq

/-- Model of `folder_to_keys(folder, enable_text, enable_image, enable_metadata)`.
The source seeds `keys` with the first enabled modality only (`if` /
`elif` / `elif`), so the `join` helper of the source is always applied
with `keys is None` and reduces to the identity, which is how it appears
here. -/
def folder_to_keys (folder : List String)
    (enable_text enable_image enable_metadata : Bool) : FolderFiles :=
  let text_files := if enable_text then some (folder.filter isTextFile) else none
  let image_files := if enable_image then some (folder.filter isImageFile) else none
  let metadata_files :=
    if enable_metadata then some (folder.filter isMetadataFile) else none
  let keys :=
    if enable_text then text_files
    else if enable_image then image_files
    else if enable_metadata then metadata_files
    else none
  { keys := keys.map sortKeys
    text_files := text_files
    image_files := image_files
    metadata_files := metadata_files }

example :
    (folder_to_keys ["b.txt", "a.txt", "a.jpg"] true true false).keys =
      some ["a.txt", "b.txt"] := by decide

example :
    (folder_to_keys ["b.txt", "a.txt", "a.jpg"] false true false).keys =
      some ["a.jpg"] := by decide

/-- A value stored in a decoded record: a string (filename, caption,
raw metadata text), an opaque image tensor, or an opaque token
encoding.  Tensors and token encodings are opaque outputs of the
injected transform and tokenizer and are modelled by naturals. -/
inductive Val where
  | vstr : String → Val
  | vtensor : Nat → Val
  | vtok : Nat → Val
  deriving Repr, DecidableEq, Inhabited

/-- A decoded record: the `output` dict built by the loaders, as an
association list in insertion order. -/
abbrev Record := List (String × Val)

/-- The environment of injected collaborators and the file system:
`decodeImage f` is `image_transform(Image.open(f))` in folder mode and
`image_transform(Image.open(BytesIO(f)))` in archive mode, `none`
meaning an `UnidentifiedImageError`/`OSError`; `readText f` is
`Path(f).read_text()`; `tokenizer` is the injected tokenizer, a
function from a batch of strings to a batch of token encodings. -/
structure Env where
  decodeImage : String → Option Nat
  readText : String → String
  tokenizer : List String → List Nat

/-- Outcome of one `ImageDataset.__getitem__` call: a returned record,
the `None` drop sentinel (carrying the printed diagnostic), or an
uncaught Python exception (carrying its class name). -/
inductive ItemResult where
  | record : Record → ItemResult
  | dropped : String → ItemResult
  | exn : String → ItemResult
  deriving Repr, DecidableEq

/-- The state of a constructed `ImageDataset`: the sampled key list,
the three modality flags and the per-modality file maps restricted to
the sampled keys (each map modelled by its key list). -/
structure ImageDataset where
  keys : List String
  enable_text : Bool
  enable_image : Bool
  enable_metadata : Bool
  text_files : List String
  image_files : List String
  metadata_files : List String
  deriving Repr, DecidableEq

/-- Model of `ImageDataset.__init__`: resolve keys with `folder_to_keys`, apply
the input sampler once, restrict each enabled modality's file map to
the sampled keys.  `none` models the constructor raising (the
`TypeError` from `folder_to_keys` when no modality is enabled). -/
def ImageDataset.init (folder : List String)
    (enable_text enable_image enable_metadata : Bool)
    (input_sampler : List String → List String) : Option ImageDataset :=
  let r := folder_to_keys folder enable_text enable_image enable_metadata
  match r.keys with
  | none => none
  | some ks =>
    let keys := input_sampler ks
    some
      { keys := keys
        enable_text := enable_text
        enable_image := enable_image
        enable_metadata := enable_metadata
        text_files :=
          if enable_text then (r.text_files.getD []).filter (keys.contains ·) else []
        image_files :=
          if enable_image then (r.image_files.getD []).filter (keys.contains ·) else []
        metadata_files :=
          if enable_metadata then (r.metadata_files.getD []).filter (keys.contains ·)
          else [] }

/-- The metadata step of `__getitem__`, entered after the image and
text steps succeeded with the accumulated `output`. -/
def ImageDataset.metadataStep (ds : ImageDataset) (env : Env) (key : String)
    (output : Record) : ItemResult :=
  if ds.enable_metadata then
    if ds.metadata_files.contains key then
      .record (output ++ [("metadata", Val.vstr (env.readText key))])
    else .exn "KeyError"
  else .record output

/-- The text step of `__getitem__`, entered after the image step
succeeded with the accumulated `output`.  The stored tokenizer is
`lambda text: tokenizer([text])[0]`; an empty tokenizer result makes
the `[0]` subscript raise. -/
def ImageDataset.textStep (ds : ImageDataset) (env : Env) (key : String)
    (output : Record) : ItemResult :=
  if ds.enable_text then
    if ds.text_files.contains key then
      match (env.tokenizer [env.readText key])[0]? with
      | none => .exn "IndexError"
      | some tt =>
          ds.metadataStep env key
            (output ++
              [("text_tokens", Val.vtok tt), ("text", Val.vstr (env.readText key))])
    else .exn "KeyError"
  else ds.metadataStep env key output

/-- Model of `ImageDataset.__getitem__(ind)`.  The image branch looks the key up
in `self.image_files` outside the `try`, so a missing key raises
`KeyError`; only the open/transform of the image file is guarded, and
its failure prints a diagnostic and returns the `None` sentinel. -/
def ImageDataset.getitem (ds : ImageDataset) (env : Env) (ind : Nat) : ItemResult :=
  match ds.keys[ind]? with
  | none => .exn "IndexError"
  | some key =>
    if ds.enable_image then
      if ds.image_files.contains key then
        match env.decodeImage key with
        | none => .dropped ("Failed to load image " ++ key ++ ". Skipping.")
        | some t =>
            ds.textStep env key
              [("image_filename", Val.vstr key), ("image_tensor", Val.vtensor t)]
      else .exn "KeyError"
    else ds.textStep env key []

/-- An archive entry: the named byte blobs of one webdataset sample
(including its `__key__`), each blob modelled by a string of bytes. -/
abbrev WdsItem := List (String × String)

/-- The parameters of `create_webdataset` other than the injected
transform, tokenizer and sampler (which live in `Env` or are passed
separately). -/
structure WdsParams where
  urls : List String
  enable_text : Bool := true
  enable_image : Bool := true
  image_key : String := "jpg"
  caption_key : String := "txt"
  enable_metadata : Bool := false
  cache_path : Option String := none

/-- The argument record `create_webdataset` hands to `wds.WebDataset`:
the sampled url list, the cache directory, and the cache size in
bytes. -/
structure WdsConfig where
  urls : List String
  cache_dir : Option String
  cache_size : Nat
  deriving Repr, DecidableEq

/-- The `wds.WebDataset(urls, cache_dir=cache_path, cache_size=10**10, ...)`
call of `create_webdataset`, after `urls = input_sampler(urls)`. -/
def create_webdataset_config (p : WdsParams)
    (input_sampler : List String → List String) : WdsConfig :=
  { urls := input_sampler p.urls
    cache_dir := p.cache_path
    cache_size := 10 ^ 10 }

/-- Model of `filter_dataset` in `create_webdataset`: reject an entry missing
the caption field when text is enabled, the image field when image is
enabled, or the literal `json` field when metadata is enabled. -/
def filter_dataset (p : WdsParams) (item : WdsItem) : Bool :=
  if p.enable_text && !(item.lookup p.caption_key).isSome then false
  else if p.enable_image && !(item.lookup p.image_key).isSome then false
  else if p.enable_metadata && !(item.lookup "json").isSome then false
  else true

/-- The `if enable_image:` section of `preprocess_dataset`: decode the
image bytes, keep the entry's `__key__` as the filename.  `none` is a
raised exception, handled by `warn_and_continue`. -/
def wds_image_step (p : WdsParams) (env : Env) (item : WdsItem) : Option Record :=
  if p.enable_image then
    match item.lookup p.image_key with
    | none => none
    | some data =>
      match env.decodeImage data with
      | none => none
      | some t =>
        match item.lookup "__key__" with
        | none => none
        | some k => some [("image_filename", Val.vstr k), ("image_tensor", Val.vtensor t)]
  else some []

/-- The `if enable_text:` section of `preprocess_dataset`: decode the
caption bytes and tokenize `tokenizer([caption])[0]`. -/
def wds_text_step (p : WdsParams) (env : Env) (item : WdsItem)
    (out1 : Record) : Option Record :=
  if p.enable_text then
    match item.lookup p.caption_key with
    | none => none
    | some text =>
      match (env.tokenizer [text])[0]? with
      | none => none
      | some tt =>
          some (out1 ++ [("text_tokens", Val.vtok tt), ("text", Val.vstr text)])
  else some out1

/-- The `if enable_metadata:` section of `preprocess_dataset`: the raw
`json` bytes as text. -/
def wds_metadata_step (p : WdsParams) (item : WdsItem) (out2 : Record) :
    Option Record :=
  if p.enable_metadata then
    match item.lookup "json" with
    | none => none
    | some m => some (out2 ++ [("metadata", Val.vstr m)])
  else some out2

/-- Model of `preprocess_dataset` in `create_webdataset`.  Any exception inside
the map (missing field, image decode failure, empty tokenizer output)
is handled by the `warn_and_continue` handler, which skips the sample:
this is modelled by `none`. -/
def preprocess_dataset (p : WdsParams) (env : Env) (item : WdsItem) :
    Option Record :=
  match wds_image_step p env item with
  | none => none
  | some out1 =>
    match wds_text_step p env item out1 with
    | none => none
    | some out2 => wds_metadata_step p item out2

/-- The record stream produced by the webdataset pipeline of
`create_webdataset`: `dataset.select(filter_dataset)` followed by
`.map(preprocess_dataset, handler=warn_and_continue)` over the entries
the shards present, in order. -/
def webdataset_pipeline (p : WdsParams) (env : Env) (items : List WdsItem) :
    List Record :=
  (items.filter (filter_dataset p)).filterMap (preprocess_dataset p env)

/-- Model of `default_collate` on a list of records (dicts): for each field of
the first record, the column of that field's values across all records;
a record missing one of those fields raises `KeyError` and an empty
batch raises on `batch[0]` — both modelled by `none`. -/
def default_collate (recs : List Record) : Option (List (String × List Val)) :=
  match recs with
  | [] => none
  | r :: _ =>
    (r.map Prod.fst).mapM fun f =>
      (recs.mapM fun (q : Record) => q.lookup f).map fun col => (f, col)

/-- Model of `collate_fn` in `dataset_to_dataloader` (files mode): drop the
`None` sentinels, then `default_collate` the survivors. -/
def collate_fn (batch : List (Option Record)) : Option (List (String × List Val)) :=
  default_collate (batch.filterMap id)

example :
    collate_fn [some [("text", Val.vstr "a")], none, some [("text", Val.vstr "b")]] =
      some [("text", [Val.vstr "a", Val.vstr "b"])] := by decide

/-! Helper lemmas. -/

theorem strEndsWith_getLast (s t : String) (h : strEndsWith s t = true)
    (ht : t.data ≠ []) : s.data.getLast? = t.data.getLast? := by
  unfold strEndsWith at h
  have h' : s.data.drop (s.data.length - t.data.length) = t.data := by
    exact beq_iff_eq.mp h
  have h2 := List.take_append_drop (s.data.length - t.data.length) s.data
  calc s.data.getLast?
      = (s.data.take (s.data.length - t.data.length) ++
          s.data.drop (s.data.length - t.data.length)).getLast? := by rw [h2]
    _ = t.data.getLast? := by
        rw [h', List.getLast?_append]
        cases he : t.data.getLast? with
        | none => exact absurd (List.getLast?_eq_none_iff.mp he) ht
        | some c => rfl

theorem isTextFile_getLast (f : String) (h : isTextFile f = true) :
    f.data.getLast? = some 't' :=
  strEndsWith_getLast f ".txt" h (by decide)

theorem isMetadataFile_getLast (f : String) (h : isMetadataFile f = true) :
    f.data.getLast? = some 'n' :=
  strEndsWith_getLast f ".json" h (by decide)

theorem isImageFile_getLast (f : String) (h : isImageFile f = true) :
    f.data.getLast? = some 'g' ∨ f.data.getLast? = some 'p' ∨
    f.data.getLast? = some 'G' ∨ f.data.getLast? = some 'P' := by
  unfold isImageFile at h
  simp only [Bool.or_eq_true] at h
  rcases h with ((((((((h | h) | h) | h) | h) | h) | h) | h) | h) | h
  · exact Or.inl (strEndsWith_getLast f ".png" h (by decide))
  · exact Or.inl (strEndsWith_getLast f ".jpg" h (by decide))
  · exact Or.inl (strEndsWith_getLast f ".jpeg" h (by decide))
  · exact Or.inr (Or.inl (strEndsWith_getLast f ".bmp" h (by decide)))
  · exact Or.inr (Or.inl (strEndsWith_getLast f ".webp" h (by decide)))
  · exact Or.inr (Or.inr (Or.inl (strEndsWith_getLast f ".PNG" h (by decide))))
  · exact Or.inr (Or.inr (Or.inl (strEndsWith_getLast f ".JPG" h (by decide))))
  · exact Or.inr (Or.inr (Or.inl (strEndsWith_getLast f ".JPEG" h (by decide))))
  · exact Or.inr (Or.inr (Or.inr (strEndsWith_getLast f ".BMP" h (by decide))))
  · exact Or.inr (Or.inr (Or.inr (strEndsWith_getLast f ".WEBP" h (by decide))))

/-- A text file is never matched by an image glob: the glob patterns
are case-sensitive suffix tests with distinct final characters. -/
theorem isImageFile_eq_false_of_isTextFile (f : String)
    (h : isTextFile f = true) : isImageFile f = false := by
  cases hi : isImageFile f with
  | false => rfl
  | true =>
    have h1 := isTextFile_getLast f h
    rcases isImageFile_getLast f hi with h2 | h2 | h2 | h2 <;>
      (rw [h1] at h2; exact absurd (Option.some.inj h2) (by decide))

/-- A dataset whose keys are all text files and whose image file map
holds only image files raises `KeyError` on every in-range index when
image is enabled: the key lookup in `self.image_files` happens outside
the `try`. -/
theorem getitem_keyError_of_text_keys (ds : ImageDataset) (env : Env) (ind : Nat)
    (hei : ds.enable_image = true)
    (hkeys : ∀ k ∈ ds.keys, isTextFile k = true)
    (himg : ∀ k ∈ ds.image_files, isImageFile k = true)
    (hind : ind < ds.keys.length) :
    ds.getitem env ind = ItemResult.exn "KeyError" := by
  have hk : ds.keys[ind]? = some ds.keys[ind] := List.getElem?_eq_getElem hind
  have hmem : ds.keys[ind] ∈ ds.keys := List.getElem_mem hind
  have htxt := hkeys _ hmem
  simp only [ImageDataset.getitem, hk, hei, if_true]
  rw [if_neg]
  intro hcc
  have hm : ds.keys[ind] ∈ ds.image_files := List.elem_iff.mp hcc
  have h2 := himg _ hm
  rw [isImageFile_eq_false_of_isTextFile _ htxt] at h2
  cases h2

/-- A concrete environment: every image decode fails, every text file
is empty, the tokenizer returns no encodings. -/
def env0 : Env :=
  { decodeImage := fun _ => none
    readText := fun _ => ""
    tokenizer := fun _ => [] }

/-- A concrete environment: every image decode succeeds with tensor
`7`, every text file reads as `"hello"`, the tokenizer returns one
encoding per input string. -/
def env1 : Env :=
  { decodeImage := fun _ => some 7
    readText := fun _ => "hello"
    tokenizer := fun l => l.map (fun s => s.length) }

/-! Claim theorems. -/

/-- C1: the claim says the usable key set of `folder_to_keys` is the
intersection of the key collections of the enabled modalities, giving
keys `["a"]` for the folder `a.jpg, a.txt, b.jpg` with text and image
enabled.  The code instead seeds the keys from the first enabled
modality only (`if`/`elif`) and keeps the file extension in the key,
so it returns `["a.txt"]` at that input. -/
theorem c1_folder_to_keys_eval :
    (folder_to_keys ["a.jpg", "a.txt", "b.jpg"] true true false).keys =
        some ["a.txt"] ∧
      (folder_to_keys ["a.jpg", "a.txt", "b.jpg"] true true false).keys ≠
        some ["a"] := by
  decide

/-- C2: for every folder source built with text and image enabled and
the identity sampler, every in-range `__getitem__` call raises an
uncaught `KeyError`: the keys are text-file paths keeping their `.txt`
extension, and the `self.image_files[key]` lookup sits outside the
`try`/`except` that only guards image decoding. -/
theorem c2_getitem_keyError (folder : List String) (em : Bool) (env : Env)
    (ds : ImageDataset) (ind : Nat)
    (hinit : ImageDataset.init folder true true em (fun a => a) = some ds)
    (hind : ind < ds.keys.length) :
    ds.getitem env ind = ItemResult.exn "KeyError" := by
  simp only [ImageDataset.init, folder_to_keys, if_true, Option.map_some',
    Option.some.injEq] at hinit
  subst hinit
  apply getitem_keyError_of_text_keys _ env ind rfl ?_ ?_ hind
  · intro k hk
    simp only [sortKeys, List.mem_insertionSort] at hk
    exact (List.mem_filter.mp hk).2
  · intro k hk
    simp only [Option.getD_some, List.mem_filter] at hk
    exact hk.1.2

/-- Witness for C2 at the folder `["a.txt", "a.jpg"]`, index `0`. -/
theorem c2_getitem_keyError_witness :
    ImageDataset.getitem
      { keys := ["a.txt"], enable_text := true, enable_image := true,
        enable_metadata := false, text_files := ["a.txt"], image_files := [],
        metadata_files := [] } env0 0 = ItemResult.exn "KeyError" :=
  c2_getitem_keyError ["a.txt", "a.jpg"] false env0 _ 0 (by decide) (by decide)

/-- Whenever `folder_to_keys` produces a key list, that list is sorted
lexicographically by code point. -/
theorem folder_to_keys_sorted (folder : List String) (et ei em : Bool)
    (ks : List String) (h : (folder_to_keys folder et ei em).keys = some ks) :
    List.Sorted (fun a b : String => strLe a b = true) ks := by
  cases et <;> cases ei <;> cases em <;> simp [folder_to_keys] at h <;>
    (rw [← h]; exact List.sorted_insertionSort _ _)

/-- C7: for every folder source, `folder_to_keys` returns the usable
keys sorted lexicographically, and `ImageDataset.__init__` applies the
input sampler to that sorted list exactly once to obtain `self.keys`,
the identity sampler leaving it unchanged. -/
theorem c7_keys_sorted_sampler_once (folder : List String) (et ei em : Bool)
    (sampler : List String → List String) (ds : ImageDataset)
    (hinit : ImageDataset.init folder et ei em sampler = some ds) :
    ∃ ks, (folder_to_keys folder et ei em).keys = some ks ∧
      List.Sorted (fun a b : String => strLe a b = true) ks ∧
      ds.keys = sampler ks ∧
      ((sampler = fun a => a) → ds.keys = ks) := by
  simp only [ImageDataset.init] at hinit
  cases hks : (folder_to_keys folder et ei em).keys with
  | none =>
    rw [hks] at hinit
    cases hinit
  | some ks =>
    rw [hks] at hinit
    injection hinit with h
    subst h
    refine ⟨ks, rfl, folder_to_keys_sorted folder et ei em ks hks, rfl, ?_⟩
    intro hs
    simp [hs]

/-- Witness for C7 at the folder `["b.txt", "a.txt"]` with text only
and the identity sampler. -/
theorem c7_keys_sorted_sampler_once_witness :
    ∃ ks, (folder_to_keys ["b.txt", "a.txt"] true false false).keys = some ks ∧
      List.Sorted (fun a b : String => strLe a b = true) ks ∧
      (ImageDataset.keys
        { keys := ["a.txt", "b.txt"], enable_text := true, enable_image := false,
          enable_metadata := false, text_files := ["b.txt", "a.txt"],
          image_files := [], metadata_files := [] }) = (fun a => a) ks ∧
      (((fun a : List String => a) = fun a => a) →
        (ImageDataset.keys
          { keys := ["a.txt", "b.txt"], enable_text := true,
            enable_image := false, enable_metadata := false,
            text_files := ["b.txt", "a.txt"], image_files := [],
            metadata_files := [] }) = ks) :=
  c7_keys_sorted_sampler_once ["b.txt", "a.txt"] true false false (fun a => a) _
    (by decide)

/-- C4: in a folder source with image enabled, when the key is present
in the image map but opening/transforming the image fails,
`__getitem__` prints a diagnostic and returns the `None` sentinel for
the whole record: no partial record and no escaping exception. -/
theorem c4_decode_failure_dropped (ds : ImageDataset) (env : Env) (ind : Nat)
    (key : String) (hk : ds.keys[ind]? = some key)
    (hei : ds.enable_image = true)
    (hmem : ds.image_files.contains key = true)
    (hfail : env.decodeImage key = none) :
    ds.getitem env ind =
      ItemResult.dropped ("Failed to load image " ++ key ++ ". Skipping.") := by
  simp [ImageDataset.getitem, hk, hei, hmem, hfail]
  exact List.elem_iff.mp hmem

/-- The metadata step only ever appends a `metadata` field to the
accumulated output. -/
theorem metadataStep_record (ds : ImageDataset) (env : Env) (key : String)
    (out : Record) (r : Record)
    (h : ds.metadataStep env key out = ItemResult.record r) :
    ∃ rest, r = out ++ rest ∧ rest.lookup "text" = none ∧
      rest.lookup "text_tokens" = none := by
  unfold ImageDataset.metadataStep at h
  split at h
  · split at h
    · injection h with h'
      exact ⟨[("metadata", Val.vstr (env.readText key))], h'.symm, by simp, by simp⟩
    · cases h
  · injection h with h'
    subst h'
    exact ⟨[], by simp, by simp, by simp⟩

/-- When the text step returns a record, the caption is the file's full
content, the stored tokens are `tokenizer([caption])[0]`, and both are
retrievable from the record. -/
theorem textStep_record (ds : ImageDataset) (env : Env) (key : String)
    (out : Record) (r : Record) (het : ds.enable_text = true)
    (h1 : out.lookup "text" = none) (h2 : out.lookup "text_tokens" = none)
    (h : ds.textStep env key out = ItemResult.record r) :
    ∃ tt, (env.tokenizer [env.readText key])[0]? = some tt ∧
      r.lookup "text" = some (Val.vstr (env.readText key)) ∧
      r.lookup "text_tokens" = some (Val.vtok tt) := by
  unfold ImageDataset.textStep at h
  split at h
  · split at h
    · split at h
      · cases h
      · next tt heq =>
          obtain ⟨rest, hre, hr1, hr2⟩ := metadataStep_record ds env key _ r h
          subst hre
          refine ⟨tt, heq, ?_, ?_⟩
          · simp [List.lookup_append, h1, hr1, List.lookup_cons]
          · simp [List.lookup_append, h2, hr2, List.lookup_cons]
    · cases h
  · next hne => exact absurd het hne

/-- C10: in both loaders, whenever a record is produced with text
enabled, the caption stored under `text` is the full decoded content of
the sample's text field/file, and the encoding stored under
`text_tokens` is the first element of the injected tokenizer applied to
the one-element list holding that caption. -/
theorem c10_caption_tokenization :
    (∀ (ds : ImageDataset) (env : Env) (ind : Nat) (key : String) (r : Record),
      ds.keys[ind]? = some key → ds.enable_text = true →
      ds.getitem env ind = ItemResult.record r →
      ∃ tt, (env.tokenizer [env.readText key])[0]? = some tt ∧
        r.lookup "text" = some (Val.vstr (env.readText key)) ∧
        r.lookup "text_tokens" = some (Val.vtok tt)) ∧
    (∀ (p : WdsParams) (env : Env) (item : WdsItem) (r : Record),
      p.enable_text = true →
      preprocess_dataset p env item = some r →
      ∃ caption tt, item.lookup p.caption_key = some caption ∧
        (env.tokenizer [caption])[0]? = some tt ∧
        r.lookup "text" = some (Val.vstr caption) ∧
        r.lookup "text_tokens" = some (Val.vtok tt)) := by
  constructor
  · intro ds env ind key r hk het hr
    unfold ImageDataset.getitem at hr
    rw [hk] at hr
    split at hr
    · next heq => cases heq
    · next key2 heq =>
      injection heq with heq2
      subst heq2
      split at hr
      · split at hr
        · split at hr
          · cases hr
          · next t hdec =>
            exact textStep_record ds env key
              [("image_filename", Val.vstr key), ("image_tensor", Val.vtensor t)]
              r het (by simp) (by simp) hr
        · cases hr
      · exact textStep_record ds env key [] r het (by simp) (by simp) hr
  · intro p env item r het hpre
    unfold preprocess_dataset at hpre
    split at hpre
    · cases hpre
    · next out1 hout1 =>
      have hlk1 : out1.lookup "text" = none ∧ out1.lookup "text_tokens" = none := by
        unfold wds_image_step at hout1
        split at hout1
        · split at hout1
          · cases hout1
          · split at hout1
            · cases hout1
            · split at hout1
              · cases hout1
              · injection hout1 with h'
                subst h'
                exact ⟨by simp, by simp⟩
        · injection hout1 with h'
          subst h'
          exact ⟨by simp, by simp⟩
      split at hpre
      · cases hpre
      · next out2 hout2 =>
        unfold wds_text_step at hout2
        rw [het] at hout2
        rw [if_pos rfl] at hout2
        split at hout2
        · cases hout2
        · next text hlook =>
          split at hout2
          · cases hout2
          · next tt heq =>
            injection hout2 with h'
            subst h'
            refine ⟨text, tt, hlook, heq, ?_⟩
            unfold wds_metadata_step at hpre
            split at hpre
            · split at hpre
              · cases hpre
              · next m hm =>
                injection hpre with h'
                subst h'
                constructor <;>
                  simp [List.lookup_append, hlk1.1, hlk1.2, List.lookup_cons]
            · injection hpre with h'
              subst h'
              constructor <;>
                simp [List.lookup_append, hlk1.1, hlk1.2, List.lookup_cons]

/-- Witness for C10: the folder conjunct at a one-text-file dataset and
the archive conjunct at a caption-only entry, both under `env1`. -/
theorem c10_caption_tokenization_witness :
    (∃ tt, (env1.tokenizer [env1.readText "a.txt"])[0]? = some tt ∧
      List.lookup "text" [("text_tokens", Val.vtok 5), ("text", Val.vstr "hello")] =
        some (Val.vstr (env1.readText "a.txt")) ∧
      List.lookup "text_tokens"
          [("text_tokens", Val.vtok 5), ("text", Val.vstr "hello")] =
        some (Val.vtok tt)) ∧
    (∃ caption tt,
      List.lookup ("txt" : String) [(("txt" : String), ("hi" : String))] =
          some caption ∧
      (env1.tokenizer [caption])[0]? = some tt ∧
      List.lookup "text" [("text_tokens", Val.vtok 2), ("text", Val.vstr "hi")] =
        some (Val.vstr caption) ∧
      List.lookup "text_tokens"
          [("text_tokens", Val.vtok 2), ("text", Val.vstr "hi")] =
        some (Val.vtok tt)) :=
  ⟨c10_caption_tokenization.1
      { keys := ["a.txt"], enable_text := true, enable_image := false,
        enable_metadata := false, text_files := ["a.txt"], image_files := [],
        metadata_files := [] }
      env1 0 "a.txt" [("text_tokens", Val.vtok 5), ("text", Val.vstr "hello")]
      (by decide) rfl (by decide),
    c10_caption_tokenization.2
      { urls := [], enable_text := true, enable_image := false,
        image_key := "jpg", caption_key := "txt", enable_metadata := false,
        cache_path := none }
      env1 [("txt", "hi")] [("text_tokens", Val.vtok 2), ("text", Val.vstr "hi")]
      rfl (by decide)⟩


/-- Filtering the `None` sentinels keeps `N - K` records, where `K`
counts the sentinels. -/
theorem filterMap_id_length (batch : List (Option Record)) :
    (batch.filterMap id).length =
      batch.length - batch.countP (fun x => x.isNone) := by
  induction batch with
  | nil => rfl
  | cons a l ih =>
    have hle : l.countP (fun x : Option Record => x.isNone) ≤ l.length :=
      List.countP_le_length _
    cases a with
    | none => simp [List.filterMap_cons, List.countP_cons, ih]
    | some v =>
      simp [List.filterMap_cons, List.countP_cons, ih]
      omega

/-- An `Option`-monad `mapM` whose function succeeds pointwise returns
the pointwise map. -/
theorem mapM_option_eq_some_map {a b : Type} (g : a → Option b) (h : a → b)
    (l : List a) (hg : ∀ x ∈ l, g x = some (h x)) :
    l.mapM g = some (l.map h) := by
  induction l with
  | nil => rfl
  | cons x t ih =>
    have hx := hg x (List.mem_cons_self x t)
    have ht := ih (fun y hy => hg y (List.mem_cons_of_mem x hy))
    rw [List.mapM_cons, hx, ht]
    rfl

theorem option_eq_some_getD {a : Type} [Inhabited a] (o : Option a)
    (h : o.isSome = true) : o = some (o.getD default) := by
  cases o with
  | none => cases h
  | some v => rfl

/-- C5 (amended): a files-mode batch of `N` loader results with `K`
`None` sentinels, at least one survivor, and every field of the first
survivor present on all survivors, collates into one column per field
of the first survivor, each column holding exactly `N - K` values, in
the survivors' original relative order.  (Without a survivor,
`default_collate` raises on `batch[0]`; with a field missing on some
survivor it raises `KeyError` — see the counterexample.) -/
theorem c5_collate_counts (batch : List (Option Record)) (r : Record)
    (rest : List Record) (hs : batch.filterMap id = r :: rest)
    (hf : ∀ f ∈ r.map Prod.fst, ∀ s ∈ r :: rest, (s.lookup f).isSome = true) :
    ∃ out, collate_fn batch = some out ∧
      out.length = r.length ∧
      ∀ pr ∈ out,
        pr.2 = (batch.filterMap id).map (fun s => (s.lookup pr.1).getD default) ∧
        pr.2.length = batch.length - batch.countP (fun x => x.isNone) := by
  refine ⟨(r.map Prod.fst).map
    (fun f => (f, (r :: rest).map (fun s => (s.lookup f).getD default))), ?_, ?_, ?_⟩
  · unfold collate_fn
    rw [hs]
    unfold default_collate
    apply mapM_option_eq_some_map
    intro f hfmem
    rw [mapM_option_eq_some_map (fun q : Record => q.lookup f)
      (fun s => (s.lookup f).getD default) (r :: rest)
      (fun s hsmem => option_eq_some_getD _ (hf f hfmem s hsmem))]
    rfl
  · simp
  · intro pr hpr
    simp only [List.mem_map] at hpr
    obtain ⟨f, hfmem, rfl⟩ := hpr
    refine ⟨by rw [hs], ?_⟩
    have hlen := filterMap_id_length batch
    rw [hs] at hlen
    simpa using hlen

/-- C5 counterexample: a batch whose records are all the `None`
sentinel (here `N = 1`, `K = 1`) produces no batch at all — the
survivor list is empty and `default_collate` raises `IndexError` on
`batch[0]` (modelled by `none`) — rather than a batch with `N - K = 0`
entries per present field, as the unrestricted claim would require. -/
theorem c5_counterexample :
    collate_fn [(none : Option Record)] = none := by decide

/-- Witness for C5 at a three-element batch with one sentinel. -/
theorem c5_collate_counts_witness :
    ∃ out,
      collate_fn [some [("text", Val.vstr "a")], none,
        some [("text", Val.vstr "b")]] = some out ∧
      out.length = 1 ∧
      ∀ pr ∈ out,
        pr.2 = ([some [("text", Val.vstr "a")], none,
            some [("text", Val.vstr "b")]].filterMap id).map
            (fun s => (s.lookup pr.1).getD default) ∧
        pr.2.length =
          [some [("text", Val.vstr "a")], none,
            some [("text", Val.vstr "b")]].length -
          [some [("text", Val.vstr "a")], none,
            some [("text", Val.vstr "b")]].countP (fun x => x.isNone) := by
  have h := c5_collate_counts
    [some [("text", Val.vstr "a")], none, some [("text", Val.vstr "b")]]
    [("text", Val.vstr "a")] [[("text", Val.vstr "b")]] (by decide) (by decide)
  simpa using h

/-- Witness for C4 at a one-image dataset whose decode fails. -/
theorem c4_decode_failure_dropped_witness :
    ImageDataset.getitem
      { keys := ["a.jpg"], enable_text := false, enable_image := true,
        enable_metadata := false, text_files := [], image_files := ["a.jpg"],
        metadata_files := [] } env0 0 =
      ItemResult.dropped ("Failed to load image " ++ "a.jpg" ++ ". Skipping.") :=
  c4_decode_failure_dropped _ env0 0 "a.jpg" (by decide) rfl (by decide) rfl

/-- C6: the archive filter admits an entry iff every enabled modality's
field is present (caption field for text, image field for image,
literal `json` for metadata); fields of disabled modalities are not
required; and a rejected entry contributes nothing to the pipeline —
it is removed before `preprocess_dataset` can decode it, whatever the
environment. -/
theorem c6_filter_required_fields (p : WdsParams) (item : WdsItem) :
    (filter_dataset p item = true ↔
      ((p.enable_text = true → (item.lookup p.caption_key).isSome = true) ∧
       (p.enable_image = true → (item.lookup p.image_key).isSome = true) ∧
       (p.enable_metadata = true → (item.lookup "json").isSome = true))) ∧
    (filter_dataset p item = false →
      ∀ env, webdataset_pipeline p env [item] = []) := by
  constructor
  · unfold filter_dataset
    split
    · next h1 =>
      simp only [Bool.and_eq_true, Bool.not_eq_true', Option.not_isSome,
        Option.isNone_iff_eq_none] at h1
      simp [h1.1, h1.2]
    · next h1 =>
      split
      · next h2 =>
        simp only [Bool.and_eq_true, Bool.not_eq_true', Option.not_isSome,
          Option.isNone_iff_eq_none] at h2
        simp [h2.1, h2.2]
      · next h2 =>
        split
        · next h3 =>
          simp only [Bool.and_eq_true, Bool.not_eq_true', Option.not_isSome,
            Option.isNone_iff_eq_none] at h3
          simp [h3.1, h3.2]
        · next h3 =>
          simp only [Bool.and_eq_true, not_and, Bool.not_eq_true',
            Option.not_isSome, Option.isNone_iff_eq_none] at h1 h2 h3
          constructor
          · intro _
            refine ⟨?_, ?_, ?_⟩ <;> intro he
            · cases hl : item.lookup p.caption_key with
              | none => exact absurd (h1 he) (by simp [hl])
              | some v => rfl
            · cases hl : item.lookup p.image_key with
              | none => exact absurd (h2 he) (by simp [hl])
              | some v => rfl
            · cases hl : item.lookup "json" with
              | none => exact absurd (h3 he) (by simp [hl])
              | some v => rfl
          · intro _
            rfl
  · intro h env
    unfold webdataset_pipeline
    simp [List.filter_cons, h]

/-- Witness for C6: an entry with no caption field, text enabled, is
rejected and yields nothing. -/
theorem c6_filter_required_fields_witness :
    webdataset_pipeline
      { urls := [], enable_text := true, enable_image := false,
        image_key := "jpg", caption_key := "txt", enable_metadata := false,
        cache_path := none } env0 [[("jpg", "bytes")]] = [] :=
  (c6_filter_required_fields _ [("jpg", "bytes")]).2 (by decide) env0

/-- C3 counterexample: archive-mode construction with no modality
enabled does not fail — the filter admits every entry, decoding is a
no-op, and the pipeline yields a (trivial) record for the entry,
contradicting "no such source yields any batch". -/
theorem c3_counterexample :
    webdataset_pipeline
      { urls := [], enable_text := false, enable_image := false,
        image_key := "jpg", caption_key := "txt", enable_metadata := false,
        cache_path := none } env0 [[("x", "y")]] = [[]] ∧
    ([[]] : List Record) ≠ [] := by
  constructor
  · rfl
  · simp

/-- C3 amended: with no modality enabled, folder mode fails at
construction (the key set stays `None` and `list(sorted(None))`
raises, so `folder_to_keys` yields no key list and
`ImageDataset.init` yields no dataset), but the raised error is an
incidental `TypeError`, and archive mode performs no check at all:
construction succeeds, every entry passes the filter, and the source
yields one empty record per entry. -/
theorem c3_no_modality_behaviour (folder : List String) (urls : List String)
    (ik ck : String) (cp : Option String) (env : Env) (items : List WdsItem) :
    (folder_to_keys folder false false false).keys = none ∧
    ImageDataset.init folder false false false (fun a => a) = none ∧
    webdataset_pipeline
      { urls := urls, enable_text := false, enable_image := false,
        image_key := ik, caption_key := ck, enable_metadata := false,
        cache_path := cp } env items = items.map (fun _ => []) := by
  refine ⟨rfl, rfl, ?_⟩
  induction items with
  | nil => rfl
  | cons it ts ih =>
    simp only [List.map_cons]
    rw [← ih]
    rfl

/-- C8 counterexample: `a.Png` carries extension `png` up to case, yet
no glob of `folder_to_keys` matches it — the patterns cover only the
all-lowercase and all-uppercase spellings. -/
theorem c8_counterexample :
    isImageFile "a.Png" = false ∧
    (folder_to_keys ["a.Png"] false true false).image_files = some [] := by
  decide

/-- C8 amended: in a folder source with image enabled, a file is in
the image collection iff it is in the folder and its path ends in one
of png/jpg/jpeg/bmp/webp spelled all-lowercase or all-uppercase;
mixed-case extensions are excluded. -/
theorem c8_image_extensions (folder : List String) (f : String) :
    f ∈ (folder_to_keys folder false true false).image_files.getD [] ↔
      f ∈ folder ∧
        ∃ e ∈ [".png", ".jpg", ".jpeg", ".bmp", ".webp",
               ".PNG", ".JPG", ".JPEG", ".BMP", ".WEBP"],
          strEndsWith f e = true := by
  simp only [folder_to_keys, if_true, Option.getD_some, List.mem_filter,
    isImageFile, Bool.or_eq_true, List.mem_cons]
  constructor
  · rintro ⟨hm, hor⟩
    refine ⟨hm, ?_⟩
    rcases hor with ((((((((h | h) | h) | h) | h) | h) | h) | h) | h) | h <;>
      exact ⟨_, by simp, h⟩
  · rintro ⟨hm, e, he, hsuf⟩
    refine ⟨hm, ?_⟩
    simp only [List.mem_cons, List.not_mem_nil, or_false] at he
    rcases he with rfl | rfl | rfl | rfl | rfl | rfl | rfl | rfl | rfl | rfl <;>
      simp [hsuf]

/-- C9 counterexample: no choice of parameters makes the cache byte
budget `5` — `create_webdataset` hardcodes `cache_size=10**10`, so the
budget is not caller-configurable. -/
theorem c9_counterexample :
    ¬ ∃ (p : WdsParams) (sampler : List String → List String),
        (create_webdataset_config p sampler).cache_size = 5 := by
  rintro ⟨p, s, h⟩
  unfold create_webdataset_config at h
  norm_num at h

/-- C9 amended: the cache directory is caller-configurable via
`cache_path` and remote shards are read through the cache layer, but
the cache byte budget is fixed at `10 ** 10` bytes for every caller. -/
theorem c9_cache_configuration (p : WdsParams)
    (sampler : List String → List String) :
    (create_webdataset_config p sampler).cache_size = 10 ^ 10 ∧
    (create_webdataset_config p sampler).cache_dir = p.cache_path ∧
    (create_webdataset_config p sampler).urls = sampler p.urls :=
  ⟨rfl, rfl, rfl⟩
